import Mathlib

/-!
Verification of the ceiling-fan RF remote accessory (`src/accessory.ts`).

The development shallowly embeds the two cores of the program:

* the raw-RF payload construction in `sendCommand` (JS string operations
  `toString(2)`, `padStart`, chained global single-character `replace`), and
* the command queue / dispatcher (`addCommand`, `runNextCommand`,
  completion handlers of the `got` HTTP promise) as a state machine whose
  events are characteristic-driven `sendCommand` calls and transport
  completions.
-/

namespace CeilingFan

/-! ### JavaScript string primitives used by `sendCommand` -/

/-- Binary digits of a natural number, most significant first, with explicit
structural fuel (the fuel is always sufficient when `n ≤ fuel + 1`).
Models the digit production of JS `Number.prototype.toString(2)`. -/
def binDigitsF : Nat → Nat → List Char
  | _, 0 => ['0']
  | _, 1 => ['1']
  | 0, _ + 2 => []
  | fuel + 1, n + 2 => binDigitsF fuel ((n + 2) / 2) ++ [if (n + 2) % 2 = 1 then '1' else '0']

/-- Binary digit list of `n`, most significant first (`"0"` for zero). -/
def binDigits (n : Nat) : List Char := binDigitsF n n

/-- JS `n.toString(2)` for a non-negative number. -/
def toBinaryString (n : Nat) : String := ⟨binDigits n⟩

/-- JS `n.toString(2)` on an arbitrary (possibly negative) JS number. -/
def toBinaryStringI (i : Int) : String :=
  if i < 0 then "-" ++ toBinaryString i.natAbs else toBinaryString i.toNat

/-- JS `s.padStart(w, c)` for a single padding character. -/
def padStartStr (s : String) (w : Nat) (c : Char) : String :=
  if w ≤ s.length then s else ⟨List.replicate (w - s.length) c ++ s.data⟩

/-- List-level global replacement of the single character `c` by `r`:
the semantics of JS `s.replace(/c/g, r)` for a one-character pattern. -/
def replaceAllL (l : List Char) (c : Char) (r : List Char) : List Char :=
  (l.map fun ch => if ch = c then r else [ch]).flatten

/-- JS `s.replace(/c/g, r)` for a one-character pattern `c`. -/
def replaceAll (s : String) (c : Char) (r : String) : String :=
  ⟨replaceAllL s.data c r.data⟩

/-! ### BitEncoder (spec §4.1): the width-10 encoding used at line 363 -/

/-- The 10-bit encoding `v.toString(2).padStart(10, "0")`. -/
def encode (v : Nat) : String := padStartStr (toBinaryString v) 10 '0'

/-- Interpretation of a binary digit string as a base-2 number
(used to state the round-trip property of the encoder). -/
def parseL (l : List Char) : Nat :=
  l.foldl (fun a c => 2 * a + (if c = '1' then 1 else 0)) 0

/-- Interpretation of a binary string as a base-2 number. -/
def parseBin (s : String) : Nat := parseL s.data

/-! ### Round-trip lemmas for the encoder -/

lemma parseL_append_singleton (l : List Char) (c : Char) :
    parseL (l ++ [c]) = 2 * parseL l + (if c = '1' then 1 else 0) := by
  simp [parseL, List.foldl_append]

lemma parseL_binDigitsF (fuel : Nat) : ∀ n : Nat, n ≤ fuel + 1 →
    parseL (binDigitsF fuel n) = n := by
  induction fuel with
  | zero =>
    intro n hn
    interval_cases n <;> simp [binDigitsF, parseL]
  | succ fuel ih =>
    intro n hn
    match n with
    | 0 => simp [binDigitsF, parseL]
    | 1 => simp [binDigitsF, parseL]
    | m + 2 =>
      rw [binDigitsF, parseL_append_singleton, ih ((m + 2) / 2) (by omega)]
      rcases Nat.mod_two_eq_zero_or_one (m + 2) with h | h <;>
        simp [h] <;> omega

lemma length_binDigitsF_le (fuel : Nat) : ∀ n k : Nat, n ≤ fuel + 1 → 1 ≤ k →
    n < 2 ^ k → (binDigitsF fuel n).length ≤ k := by
  induction fuel with
  | zero =>
    intro n k hn hk _
    interval_cases n <;> simp [binDigitsF] <;> omega
  | succ fuel ih =>
    intro n k hn hk hpow
    match n with
    | 0 => simpa [binDigitsF] using hk
    | 1 => simpa [binDigitsF] using hk
    | m + 2 =>
      have hk2 : 2 ≤ k := by
        by_contra hlt
        have : k = 1 := by omega
        subst this
        omega
      have hdiv : (m + 2) / 2 < 2 ^ (k - 1) := by
        rw [Nat.div_lt_iff_lt_mul (by omega)]
        calc m + 2 < 2 ^ k := hpow
        _ = 2 ^ (k - 1) * 2 := by
              rw [← Nat.pow_succ]
              congr 1
              omega
      have := ih ((m + 2) / 2) (k - 1) (by omega) (by omega) hdiv
      rw [binDigitsF]
      simp only [List.length_append, List.length_singleton]
      omega

lemma length_binDigits_le (n k : Nat) (hk : 1 ≤ k) (h : n < 2 ^ k) :
    (binDigits n).length ≤ k :=
  length_binDigitsF_le n n k (by omega) hk h

lemma parseL_binDigits (n : Nat) : parseL (binDigits n) = n :=
  parseL_binDigitsF n n (by omega)

lemma parseL_replicate_zero (k : Nat) (l : List Char) :
    parseL (List.replicate k '0' ++ l) = parseL l := by
  induction k with
  | zero => simp
  | succ k ih =>
    rw [List.replicate_succ, List.cons_append]
    simpa [parseL] using ih

/-- **C5.** For every integer `v` in `[0, 1023]`, the 10-bit encoding of `v`
(the base-2 string left-padded with `'0'` to width 10, most significant bit
first) has length exactly 10 and round-trips: interpreting the resulting
string as a base-2 number yields `v` again. -/
theorem encode_length_and_roundtrip (v : Nat) (h : v ≤ 1023) :
    (encode v).length = 10 ∧ parseBin (encode v) = v := by
  have hlen : (binDigits v).length ≤ 10 :=
    length_binDigits_le v 10 (by omega) (by omega)
  constructor
  · rw [encode, padStartStr]
    by_cases hge : 10 ≤ (toBinaryString v).length
    · rw [if_pos hge]
      have : (toBinaryString v).length = (binDigits v).length := rfl
      omega
    · rw [if_neg hge]
      show (List.replicate (10 - (toBinaryString v).length) '0' ++
        (toBinaryString v).data).length = 10
      have : (toBinaryString v).length = (binDigits v).length := rfl
      have hdata : (toBinaryString v).data = binDigits v := rfl
      simp only [List.length_append, List.length_replicate, hdata]
      omega
  · rw [encode, padStartStr]
    by_cases hge : 10 ≤ (toBinaryString v).length
    · rw [if_pos hge]
      exact parseL_binDigits v
    · rw [if_neg hge]
      show parseL (List.replicate (10 - (toBinaryString v).length) '0' ++
        (toBinaryString v).data) = v
      rw [parseL_replicate_zero]
      exact parseL_binDigits v

/-- Witness for the encoder round-trip at the concrete command code 98. -/
theorem encode_length_and_roundtrip_witness :
    (98 : Nat) ≤ 1023 ∧ (encode 98).length = 10 ∧ parseBin (encode 98) = 98 :=
  ⟨by decide, encode_length_and_roundtrip 98 (by decide)⟩

/-! ### RawCommandBuilder: lines 362–365 of `accessory.ts` -/

/-- Line 362: the room block built from the configured remote id. -/
def room (remote : String) : String :=
  "A0" ++ replaceAll (replaceAll (padStartStr remote 40 '0') '0' "82") '1' "A0" ++ "82"

/-- Line 363: the command block built from the command code. -/
def rfrawCommand (command : Int) : String :=
  "82" ++ replaceAll (replaceAll (padStartStr (toBinaryStringI command) 10 '0') '0' "82") '1' "A0" ++ "A0"

/-- Line 364: the inverse-command block built from the command code. -/
def rfrawInverseCommand (command : Int) : String :=
  "A0" ++ replaceAll (replaceAll (padStartStr (toBinaryStringI command) 10 '0') '1' "82") '0' "A0" ++ "83"

/-- Line 365: the full target URL of the HTTP GET sent to the bridge. -/
def target (rfbridge remote : String) (command : Int) : String :=
  "http://" ++ rfbridge ++
    "/cm?cmnd=rfraw%20AAB0580403018813E803106510808080808080808080808081" ++
    room remote ++ rfrawCommand command ++ rfrawInverseCommand command ++ "55"

/-! ### Spec-side descriptions of the blocks (claim formalisation) -/

/-- The fixed protocol header literal of the descriptor. -/
def headerLit : String := "AAB0580403018813E803106510808080808080808080808081"

/-- Simultaneous per-character substitution `'0' ↦ "82"`, `'1' ↦ "A0"`. -/
def sub01L (c : Char) : List Char :=
  if c = '0' then ['8', '2'] else if c = '1' then ['A', '0'] else [c]

/-- Simultaneous substitution `'0' ↦ "82"`, `'1' ↦ "A0"` on a string. -/
def simulSub01 (s : String) : String := ⟨(s.data.map sub01L).flatten⟩

/-- Simultaneous per-character substitution `'1' ↦ "82"`, `'0' ↦ "A0"`. -/
def sub10L (c : Char) : List Char :=
  if c = '1' then ['8', '2'] else if c = '0' then ['A', '0'] else [c]

/-- Simultaneous substitution `'1' ↦ "82"`, `'0' ↦ "A0"` on a string. -/
def simulSub10 (s : String) : String := ⟨(s.data.map sub10L).flatten⟩

/-- Bitwise complement of a binary digit string (spec §4.1 `complement`). -/
def complementStr (s : String) : String :=
  ⟨s.data.map fun c => if c = '0' then '1' else if c = '1' then '0' else c⟩

/-- Modelled from the spec: the inverse-command block as the *spec* words it
(§4.2 step 3): complement the 10-bit string of the command, then substitute
`'1' ↦ "82"`, `'0' ↦ "A0"` in the complement, wrapped with `A0` … `83`. -/
def specInverseCommandBlock (command : Nat) : String :=
  "A0" ++ simulSub10 (complementStr (encode command)) ++ "83"

lemma replaceAllL_append (l₁ l₂ : List Char) (c : Char) (r : List Char) :
    replaceAllL (l₁ ++ l₂) c r = replaceAllL l₁ c r ++ replaceAllL l₂ c r := by
  simp [replaceAllL]

/-- The two chained global replacements of line 362/363 coincide with the
simultaneous substitution `'0' ↦ "82"`, `'1' ↦ "A0"`. -/
lemma seq_replace01 (l : List Char) :
    replaceAllL (replaceAllL l '0' ['8', '2']) '1' ['A', '0'] =
      (l.map sub01L).flatten := by
  induction l with
  | nil => simp [replaceAllL]
  | cons a l ih =>
    have hstep : replaceAllL (a :: l) '0' ['8', '2'] =
        (if a = '0' then ['8', '2'] else [a]) ++ replaceAllL l '0' ['8', '2'] := by
      simp [replaceAllL]
    rw [hstep, replaceAllL_append, ih]
    by_cases h0 : a = '0'
    · subst h0
      simp [replaceAllL, sub01L]
    · by_cases h1 : a = '1'
      · subst h1
        simp [replaceAllL, sub01L]
      · simp [replaceAllL, sub01L, h0, h1]

/-- The two chained global replacements of line 364 coincide with the
simultaneous substitution `'1' ↦ "82"`, `'0' ↦ "A0"`. -/
lemma seq_replace10 (l : List Char) :
    replaceAllL (replaceAllL l '1' ['8', '2']) '0' ['A', '0'] =
      (l.map sub10L).flatten := by
  induction l with
  | nil => simp [replaceAllL]
  | cons a l ih =>
    have hstep : replaceAllL (a :: l) '1' ['8', '2'] =
        (if a = '1' then ['8', '2'] else [a]) ++ replaceAllL l '1' ['8', '2'] := by
      simp [replaceAllL]
    rw [hstep, replaceAllL_append, ih]
    by_cases h1 : a = '1'
    · subst h1
      simp [replaceAllL, sub10L]
    · by_cases h0 : a = '0'
      · subst h0
        simp [replaceAllL, sub10L]
      · simp [replaceAllL, sub10L, h0, h1]

lemma toBinaryStringI_ofNat (command : Int) (h0 : 0 ≤ command) :
    toBinaryStringI command = toBinaryString command.toNat := by
  rw [toBinaryStringI, if_neg (by omega)]

lemma replaceAll_chain01 (s : String) :
    replaceAll (replaceAll s '0' "82") '1' "A0" = simulSub01 s := by
  show (⟨replaceAllL (replaceAllL s.data '0' ("82").data) '1' ("A0").data⟩ : String) =
    ⟨(s.data.map sub01L).flatten⟩
  rw [show ("82").data = ['8', '2'] from rfl, show ("A0").data = ['A', '0'] from rfl,
    seq_replace01]

lemma replaceAll_chain10 (s : String) :
    replaceAll (replaceAll s '1' "82") '0' "A0" = simulSub10 s := by
  show (⟨replaceAllL (replaceAllL s.data '1' ("82").data) '0' ("A0").data⟩ : String) =
    ⟨(s.data.map sub10L).flatten⟩
  rw [show ("82").data = ['8', '2'] from rfl, show ("A0").data = ['A', '0'] from rfl,
    seq_replace10]

lemma simulSub10_eq_complement (s : String) :
    simulSub10 s = simulSub01 (complementStr s) := by
  show (⟨(s.data.map sub10L).flatten⟩ : String) =
    ⟨((s.data.map fun c => if c = '0' then '1' else if c = '1' then '0' else c).map
        sub01L).flatten⟩
  rw [List.map_map]
  apply congrArg String.mk
  apply congrArg List.flatten
  apply List.map_congr_left
  intro c _
  by_cases h0 : c = '0'
  · subst h0
    rfl
  · by_cases h1 : c = '1'
    · subst h1
      rfl
    · simp [sub10L, sub01L, Function.comp, h0, h1]

/-- **C6.** For every device address made of decimal digits and every command
code in `[0, 1023]`: the room block is the address left-padded with zeros to
width 40 with each `'0'` replaced by `82` and each `'1'` replaced by `A0`,
wrapped in `A0` … `82`; and the command block is the command's 10-bit binary
string with `'0' ↦ 82`, `'1' ↦ A0`, wrapped in `82` … `A0`. -/
theorem room_and_command_blocks (remote : String)
    (hd : ∀ c ∈ remote.data, c.isDigit) (command : Int)
    (h0 : 0 ≤ command) (h1 : command ≤ 1023) :
    room remote = "A0" ++ simulSub01 (padStartStr remote 40 '0') ++ "82" ∧
    rfrawCommand command = "82" ++ simulSub01 (encode command.toNat) ++ "A0" := by
  constructor
  · rw [room, replaceAll_chain01]
  · rw [rfrawCommand, toBinaryStringI_ofNat command h0, replaceAll_chain01, encode]

/-- Witness for the block shapes at address `"0"` and command code 98. -/
theorem room_and_command_blocks_witness :
    room "0" = "A0" ++ simulSub01 (padStartStr "0" 40 '0') ++ "82" ∧
    rfrawCommand 98 = "82" ++ simulSub01 (encode (98 : Int).toNat) ++ "A0" :=
  room_and_command_blocks "0" (by decide) 98 (by decide) (by decide)

/-- The golden descriptor for command code 98 at device address `"0"`. -/
def goldenDescriptor98 : String :=
  "AAB0580403018813E803106510808080808080808080808081A0828282828282828282828282828282828282828282828282828282828282828282828282828282828282828282A0A0828282A082A0A0A0A0A08282A0A0A082A08355"

set_option maxRecDepth 100000 in
/-- **C2.** For every command code in `[0, 1023]` and every configured device
address, the transmitted URL is `http://` + bridge host + `/cm?cmnd=rfraw%20`
followed by the descriptor: the fixed header literal, the room block, the
command block, the inverse-command block and the fixed trailer `55`; for
command code 98 and device address `"0"` the descriptor equals the golden
value. -/
theorem target_url_shape (bridge remote : String) (command : Int)
    (h0 : 0 ≤ command) (h1 : command ≤ 1023) :
    target bridge remote command =
      "http://" ++ bridge ++ "/cm?cmnd=rfraw%20" ++
        (headerLit ++ room remote ++ rfrawCommand command ++
          rfrawInverseCommand command ++ "55") ∧
    headerLit ++ room "0" ++ rfrawCommand 98 ++ rfrawInverseCommand 98 ++ "55" =
      goldenDescriptor98 := by
  constructor
  · rw [target,
      show ("/cm?cmnd=rfraw%20AAB0580403018813E803106510808080808080808080808081" :
          String) = "/cm?cmnd=rfraw%20" ++ headerLit from rfl]
    simp [String.append_assoc]
  · decide

/-- Witness for the URL shape at bridge `"bridge"`, address `"0"`, code 98. -/
theorem target_url_shape_witness :
    target "bridge" "0" 98 =
      "http://" ++ "bridge" ++ "/cm?cmnd=rfraw%20" ++
        (headerLit ++ room "0" ++ rfrawCommand 98 ++ rfrawInverseCommand 98 ++
          "55") :=
  (target_url_shape "bridge" "0" 98 (by decide) (by decide)).1

/-- **C3 counterexample.** At command code 98 the block the claim describes
(complement the 10-bit string, then substitute `'1' ↦ 82`, `'0' ↦ A0`) is not
the inverse-command block the code builds. -/
theorem spec_inverse_block_differs : specInverseCommandBlock 98 ≠ rfrawInverseCommand 98 := by
  decide

/-- **C3 (amended).** For every command code in `[0, 1023]` the
inverse-command block is the command's 10-bit binary string with the swapped
substitution `'1' ↦ 82`, `'0' ↦ A0` — equivalently, the bitwise complement of
the 10-bit string with the command-block substitution `'0' ↦ 82`, `'1' ↦ A0`
— wrapped with fixed prefix `A0` and fixed suffix `83`. -/
theorem inverse_command_block (command : Int) (h0 : 0 ≤ command)
    (h1 : command ≤ 1023) :
    rfrawInverseCommand command = "A0" ++ simulSub10 (encode command.toNat) ++ "83" ∧
    simulSub10 (encode command.toNat) =
      simulSub01 (complementStr (encode command.toNat)) := by
  refine ⟨?_, simulSub10_eq_complement _⟩
  rw [rfrawInverseCommand, toBinaryStringI_ofNat command h0, replaceAll_chain10, encode]

/-- Witness for the inverse-command block shape at command code 98. -/
theorem inverse_command_block_witness :
    rfrawInverseCommand 98 = "A0" ++ simulSub10 (encode (98 : Int).toNat) ++ "83" :=
  (inverse_command_block 98 (by decide) (by decide)).1

/-! ### Command queue and dispatcher (lines 106–419 of `accessory.ts`) -/

/-- The `Command` interface: `{command: number, targetUrl: string}`. -/
structure Command where
  command : Int
  targetUrl : String
deriving DecidableEq

/-- The configuration the dispatcher reads: `this.rfbridge`, `this.remote`. -/
structure Accessory where
  rfbridge : String
  remote : String
deriving DecidableEq

/-- Constructor lines 116–124: a missing (or empty, JS-falsy) config field
falls back to the sentinel `"test"`. -/
def orTestDefault (v : Option String) : String :=
  match v with
  | none => "test"
  | some s => if s = "" then "test" else s

/-- The accessory as configured by the constructor from the raw config. -/
def mkAccessory (rfbridge remote : Option String) : Accessory :=
  { rfbridge := orTestDefault rfbridge, remote := orTestDefault remote }

/-- The mutable dispatcher state: the `pendingCommand` flag and
`commandQueue` array of the accessory, plus the observable transport
history — `inFlightCalls` are `got(target)` calls whose handlers have not
run yet, `started` is every transport call ever begun, in order. -/
structure DispatchState where
  pendingCommand : Bool
  commandQueue : List Command
  inFlightCalls : List Command
  started : List Command
deriving DecidableEq

/-- The state right after construction: idle, empty queue, no calls. -/
def initState : DispatchState :=
  { pendingCommand := false, commandQueue := [], inFlightCalls := [], started := [] }

/-- Lines 390–419 (`runNextCommand`): if no command is pending, `pop()` the
most recently pushed entry; outside test mode mark a command pending and
start the transport call, in test mode only log. -/
def runNextCommand (a : Accessory) (s : DispatchState) : DispatchState :=
  if s.pendingCommand then s
  else
    match s.commandQueue.getLast? with
    | none => s
    | some nextCommand =>
      if ¬(a.rfbridge = "test" ∨ a.remote = "test") then
        { s with pendingCommand := true
                 commandQueue := s.commandQueue.dropLast
                 inFlightCalls := s.inFlightCalls ++ [nextCommand]
                 started := s.started ++ [nextCommand] }
      else
        { s with commandQueue := s.commandQueue.dropLast }

/-- Lines 384–388 (`addCommand`): `push` the entry, log, drain. -/
def addCommand (a : Accessory) (c : Command) (s : DispatchState) : DispatchState :=
  runNextCommand a { s with commandQueue := s.commandQueue ++ [c] }

/-- A JavaScript value as it reaches `sendCommand` — a number, or the
`undefined` produced by an out-of-bounds / fractional array lookup. -/
inductive JSVal where
  | num (n : Int)
  | undefined
deriving DecidableEq

/-- JS `typeof v === "number"`. -/
def isNumber : JSVal → Bool
  | .num _ => true
  | .undefined => false

/-- Lines 311–382 (`sendCommand`): the guard
`command === -1 || typeof command !== "number"` silently drops the call;
otherwise the payload is built and the entry queued. -/
def sendCommand (a : Accessory) (command : JSVal) (s : DispatchState) : DispatchState :=
  match command with
  | .undefined => s
  | .num n =>
    if n = -1 then s
    else addCommand a { command := n, targetUrl := target a.rfbridge a.remote n } s

/-- Lines 400–409: the handlers of the `got` promise. `.catch` only logs,
`.finally` clears `pendingCommand` and drains again — for success and
failure alike. The completed call leaves `inFlightCalls`. -/
def completeCall (a : Accessory) (failed : Bool) (s : DispatchState) : DispatchState :=
  match s.inFlightCalls with
  | [] => s
  | _ :: rest =>
    runNextCommand a { s with pendingCommand := false, inFlightCalls := rest }

/-- An externally triggered event: a characteristic-driven `sendCommand`
call, or the settlement of an outstanding transport promise. -/
inductive Ev where
  | send (command : JSVal)
  | complete (failed : Bool)

/-- One event of the dispatcher state machine. -/
def stepEv (a : Accessory) (s : DispatchState) : Ev → DispatchState
  | .send c => sendCommand a c s
  | .complete f => completeCall a f s

/-- The state after a sequence of events from the freshly constructed state. -/
def runEvents (a : Accessory) (t : List Ev) : DispatchState :=
  t.foldl (stepEv a) initState

/-- The single-flight invariant: never more than one outstanding transport
call, and `pendingCommand` is set exactly while one is outstanding. -/
def SingleFlight (s : DispatchState) : Prop :=
  s.inFlightCalls.length ≤ 1 ∧ (s.pendingCommand = true ↔ s.inFlightCalls ≠ [])

lemma singleFlight_init : SingleFlight initState := by
  constructor <;> simp [initState]

lemma runNextCommand_of_pending (a : Accessory) (s : DispatchState)
    (h : s.pendingCommand = true) : runNextCommand a s = s := by
  rw [runNextCommand, if_pos h]

lemma singleFlight_runNextCommand (a : Accessory) (s : DispatchState)
    (h : SingleFlight s) : SingleFlight (runNextCommand a s) := by
  obtain ⟨hlen, hiff⟩ := h
  rw [runNextCommand]
  by_cases hp : s.pendingCommand = true
  · rw [if_pos hp]
    exact ⟨hlen, hiff⟩
  · rw [if_neg hp]
    have hnil : s.inFlightCalls = [] := by
      by_contra hne
      exact hp (hiff.mpr hne)
    rcases hq : s.commandQueue.getLast? with _ | c
    · exact ⟨hlen, hiff⟩
    · dsimp only
      by_cases ht : a.rfbridge = "test" ∨ a.remote = "test"
      · rw [if_neg (not_not_intro ht)]
        exact ⟨hlen, hiff⟩
      · rw [if_pos ht]
        refine ⟨?_, ?_⟩
        · simp [hnil]
        · simp [hnil]

lemma singleFlight_addCommand (a : Accessory) (c : Command) (s : DispatchState)
    (h : SingleFlight s) : SingleFlight (addCommand a c s) := by
  apply singleFlight_runNextCommand
  exact ⟨h.1, h.2⟩

lemma singleFlight_stepEv (a : Accessory) (s : DispatchState) (e : Ev)
    (h : SingleFlight s) : SingleFlight (stepEv a s e) := by
  match e with
  | .send c =>
    match c with
    | .undefined => exact h
    | .num n =>
      show SingleFlight (sendCommand a (.num n) s)
      rw [sendCommand]
      by_cases hn : n = -1
      · rw [if_pos hn]
        exact h
      · rw [if_neg hn]
        exact singleFlight_addCommand a _ s h
  | .complete f =>
    show SingleFlight (completeCall a f s)
    rw [completeCall]
    match hfl : s.inFlightCalls with
    | [] => exact h
    | c :: rest =>
      have hrest : rest = [] := by
        have := h.1
        rw [hfl] at this
        simpa using this
      apply singleFlight_runNextCommand
      subst hrest
      constructor
      · simp
      · simp

lemma singleFlight_runEvents (a : Accessory) (t : List Ev) :
    SingleFlight (runEvents a t) := by
  rw [runEvents]
  have : ∀ s : DispatchState, SingleFlight s → SingleFlight (t.foldl (stepEv a) s) := by
    induction t with
    | nil => intro s hs; exact hs
    | cons e t ih =>
      intro s hs
      exact ih _ (singleFlight_stepEv a s e hs)
  exact this initState singleFlight_init

lemma started_addCommand_of_pending (a : Accessory) (c : Command)
    (s : DispatchState) (h : s.pendingCommand = true) :
    (addCommand a c s).started = s.started := by
  rw [addCommand, runNextCommand_of_pending a _ (by simpa using h)]

lemma started_two_drains (a : Accessory) (s : DispatchState) :
    (runNextCommand a (runNextCommand a s)).started.length ≤ s.started.length + 1 := by
  by_cases hp : s.pendingCommand = true
  · rw [runNextCommand_of_pending a s hp, runNextCommand_of_pending a s hp]
    omega
  · rcases hq : s.commandQueue.getLast? with _ | c
    · have h1 : runNextCommand a s = s := by
        rw [runNextCommand, if_neg hp, hq]
      rw [h1, h1]
      omega
    · by_cases ht : a.rfbridge = "test" ∨ a.remote = "test"
      · have h1 : runNextCommand a s = { s with commandQueue := s.commandQueue.dropLast } := by
          rw [runNextCommand, if_neg hp, hq]
          dsimp only
          rw [if_neg (not_not_intro ht)]
        rw [h1]
        have h2 : (runNextCommand a { s with commandQueue := s.commandQueue.dropLast }).started
            = s.started := by
          rw [runNextCommand]
          by_cases hp2 :
              ({ s with commandQueue := s.commandQueue.dropLast} : DispatchState).pendingCommand
                = true
          · rw [if_pos hp2]
          · rw [if_neg hp2]
            rcases hq2 : s.commandQueue.dropLast.getLast? with _ | c2
            · rfl
            · dsimp only
              rw [if_neg (not_not_intro ht)]
        rw [h2]
        omega
      · have h1 : runNextCommand a s =
            { s with pendingCommand := true
                     commandQueue := s.commandQueue.dropLast
                     inFlightCalls := s.inFlightCalls ++ [c]
                     started := s.started ++ [c] } := by
          rw [runNextCommand, if_neg hp, hq]
          dsimp only
          rw [if_pos ht]
        rw [h1, runNextCommand_of_pending a _ rfl]
        simp

/-- A live (non-test) configuration used for concrete runs. -/
def liveCfg : Accessory := { rfbridge := "bridge", remote := "7" }

/-- **C1.** From any reachable state: at most one transport call is
outstanding; while one is outstanding neither a further enqueue
(`addCommand`) nor a further drain attempt (`runNextCommand`) starts a
second transport call; and two immediately successive drain attempts start
at most one transport call. -/
theorem single_flight_dispatch (a : Accessory) (t : List Ev) :
    (runEvents a t).inFlightCalls.length ≤ 1 ∧
    ((runEvents a t).inFlightCalls ≠ [] →
      (∀ c : Command, (addCommand a c (runEvents a t)).started = (runEvents a t).started) ∧
      (runNextCommand a (runEvents a t)).started = (runEvents a t).started) ∧
    (runNextCommand a (runNextCommand a (runEvents a t))).started.length ≤
      (runEvents a t).started.length + 1 := by
  obtain ⟨hlen, hiff⟩ := singleFlight_runEvents a t
  refine ⟨hlen, ?_, started_two_drains a _⟩
  intro hne
  have hp : (runEvents a t).pendingCommand = true := hiff.mpr hne
  exact ⟨fun c => started_addCommand_of_pending a c _ hp,
    by rw [runNextCommand_of_pending a _ hp]⟩

/-- Witness for single-flight after one dispatched command. -/
theorem single_flight_dispatch_witness :
    (runEvents liveCfg [Ev.send (JSVal.num 98)]).inFlightCalls.length ≤ 1 ∧
    (addCommand liveCfg { command := 5, targetUrl := "u" }
        (runEvents liveCfg [Ev.send (JSVal.num 98)])).started =
      (runEvents liveCfg [Ev.send (JSVal.num 98)]).started :=
  ⟨(single_flight_dispatch liveCfg [Ev.send (JSVal.num 98)]).1,
   ((single_flight_dispatch liveCfg [Ev.send (JSVal.num 98)]).2.1
      (by decide)).1 { command := 5, targetUrl := "u" }⟩

/-- The C4 scenario: enqueue the three commands 4, 32, 64 (as A, B, C) while
idle, each transmission completing before the next starts. -/
def traceABC : List Ev :=
  [Ev.send (JSVal.num 4), Ev.send (JSVal.num 32), Ev.send (JSVal.num 64),
   Ev.complete false, Ev.complete false, Ev.complete false]

/-- **C4 counterexample.** Enqueuing A = 4, B = 32, C = 64 in that order
while the dispatcher is idle dispatches A, then C, then B — not C, B, A as
claimed: the first command is dispatched immediately upon its own enqueue. -/
theorem lifo_claim_false :
    (runEvents liveCfg traceABC).started.map Command.command = [4, 64, 32] ∧
    (runEvents liveCfg traceABC).started.map Command.command ≠ [64, 32, 4] := by
  decide

/-- **C4 (amended).** If commands A, B, C are enqueued in that order while
the dispatcher is idle and each dispatch completes before the next begins,
the dispatch order is A first (started immediately by its own enqueue), then
C, then B: every drain after the first removes the most recently enqueued
entry. -/
theorem dispatch_order_lifo_after_first (x y z : Int)
    (hx : x ≠ -1) (hy : y ≠ -1) (hz : z ≠ -1) :
    (runEvents liveCfg
      [Ev.send (JSVal.num x), Ev.send (JSVal.num y), Ev.send (JSVal.num z),
       Ev.complete false, Ev.complete false, Ev.complete false]).started.map
        Command.command = [x, z, y] := by
  have s1 : stepEv liveCfg initState (Ev.send (JSVal.num x)) =
      { pendingCommand := true, commandQueue := [],
        inFlightCalls := [{ command := x, targetUrl := target "bridge" "7" x }],
        started := [{ command := x, targetUrl := target "bridge" "7" x }] } := by
    show (if x = -1 then initState
      else addCommand liveCfg
        { command := x, targetUrl := target liveCfg.rfbridge liveCfg.remote x }
        initState) = _
    rw [if_neg hx]
    rfl
  have s2 : stepEv liveCfg
      { pendingCommand := true, commandQueue := [],
        inFlightCalls := [{ command := x, targetUrl := target "bridge" "7" x }],
        started := [{ command := x, targetUrl := target "bridge" "7" x }] }
      (Ev.send (JSVal.num y)) =
      { pendingCommand := true,
        commandQueue := [{ command := y, targetUrl := target "bridge" "7" y }],
        inFlightCalls := [{ command := x, targetUrl := target "bridge" "7" x }],
        started := [{ command := x, targetUrl := target "bridge" "7" x }] } := by
    show (if y = -1 then _ else addCommand liveCfg
        { command := y, targetUrl := target liveCfg.rfbridge liveCfg.remote y } _) = _
    rw [if_neg hy]
    rfl
  have s3 : stepEv liveCfg
      { pendingCommand := true,
        commandQueue := [{ command := y, targetUrl := target "bridge" "7" y }],
        inFlightCalls := [{ command := x, targetUrl := target "bridge" "7" x }],
        started := [{ command := x, targetUrl := target "bridge" "7" x }] }
      (Ev.send (JSVal.num z)) =
      { pendingCommand := true,
        commandQueue := [{ command := y, targetUrl := target "bridge" "7" y },
          { command := z, targetUrl := target "bridge" "7" z }],
        inFlightCalls := [{ command := x, targetUrl := target "bridge" "7" x }],
        started := [{ command := x, targetUrl := target "bridge" "7" x }] } := by
    show (if z = -1 then _ else addCommand liveCfg
        { command := z, targetUrl := target liveCfg.rfbridge liveCfg.remote z } _) = _
    rw [if_neg hz]
    rfl
  rw [runEvents, List.foldl_cons, s1, List.foldl_cons, s2, List.foldl_cons, s3]
  rfl

/-- Witness for the amended dispatch order at commands 4, 32, 64. -/
theorem dispatch_order_lifo_after_first_witness :
    (runEvents liveCfg
      [Ev.send (JSVal.num 4), Ev.send (JSVal.num 32), Ev.send (JSVal.num 64),
       Ev.complete false, Ev.complete false, Ev.complete false]).started.map
        Command.command = [4, 64, 32] :=
  dispatch_order_lifo_after_first 4 32 64 (by decide) (by decide) (by decide)

/-- **C7.** Completion of an in-flight transmission — success or failure
alike — releases the flag and drains: with a non-empty queue outside test
mode, the most recently enqueued entry is dispatched next, so a transport
failure never prevents subsequent queued entries from being dispatched. -/
theorem completion_releases_and_drains (a : Accessory) (f : Bool)
    (s : DispatchState) (c : Command) (r : List Command)
    (h : s.inFlightCalls = c :: r) (hq : s.commandQueue ≠ [])
    (ht : ¬(a.rfbridge = "test" ∨ a.remote = "test")) :
    completeCall a true s = completeCall a false s ∧
    (completeCall a f s).pendingCommand = true ∧
    (completeCall a f s).started = s.started ++ [s.commandQueue.getLast hq] ∧
    (completeCall a f s).commandQueue = s.commandQueue.dropLast := by
  have hcc : ∀ g : Bool, completeCall a g s =
      runNextCommand a { s with pendingCommand := false, inFlightCalls := r } := by
    intro g
    show (match s.inFlightCalls with
      | [] => s
      | _ :: rest =>
        runNextCommand a { s with pendingCommand := false, inFlightCalls := rest }) = _
    rw [h]
  have hql : s.commandQueue.getLast? = some (s.commandQueue.getLast hq) :=
    List.getLast?_eq_getLast _ hq
  have hrun : runNextCommand a { s with pendingCommand := false, inFlightCalls := r } =
      { s with pendingCommand := true
               commandQueue := s.commandQueue.dropLast
               inFlightCalls := r ++ [s.commandQueue.getLast hq]
               started := s.started ++ [s.commandQueue.getLast hq] } := by
    rw [runNextCommand]
    dsimp only
    rw [if_neg (by simp), hql]
    dsimp only
    rw [if_pos ht]
  refine ⟨(hcc true).trans (hcc false).symm, ?_, ?_, ?_⟩ <;> rw [hcc f, hrun]

/-- Witness for completion behaviour at a concrete busy state. -/
theorem completion_releases_and_drains_witness :
    completeCall liveCfg true
        { pendingCommand := true,
          commandQueue := [{ command := 1, targetUrl := "a" },
            { command := 2, targetUrl := "b" }],
          inFlightCalls := [{ command := 3, targetUrl := "c" }],
          started := [{ command := 3, targetUrl := "c" }] } =
      completeCall liveCfg false
        { pendingCommand := true,
          commandQueue := [{ command := 1, targetUrl := "a" },
            { command := 2, targetUrl := "b" }],
          inFlightCalls := [{ command := 3, targetUrl := "c" }],
          started := [{ command := 3, targetUrl := "c" }] } :=
  (completion_releases_and_drains liveCfg true
    { pendingCommand := true,
      commandQueue := [{ command := 1, targetUrl := "a" },
        { command := 2, targetUrl := "b" }],
      inFlightCalls := [{ command := 3, targetUrl := "c" }],
      started := [{ command := 3, targetUrl := "c" }] }
    { command := 3, targetUrl := "c" } [] rfl (by decide) (by decide)).1

lemma test_mode_stepEv (a : Accessory)
    (ht : a.rfbridge = "test" ∨ a.remote = "test") (e : Ev) :
    stepEv a initState e = initState := by
  match e with
  | .complete f => rfl
  | .send .undefined => rfl
  | .send (.num n) =>
    show (if n = -1 then initState
      else addCommand a
        { command := n, targetUrl := target a.rfbridge a.remote n } initState) = initState
    by_cases hn : n = -1
    · rw [if_pos hn]
    · rw [if_neg hn]
      rcases ht with h | h <;>
        simp [addCommand, runNextCommand, initState, h]

lemma test_mode_runEvents (a : Accessory)
    (ht : a.rfbridge = "test" ∨ a.remote = "test") (t : List Ev) :
    runEvents a t = initState := by
  rw [runEvents]
  induction t with
  | nil => rfl
  | cons e t ih => rw [List.foldl_cons, test_mode_stepEv a ht e, ih]

/-- **C8.** In test mode (bridge host or remote id equal to `"test"`, which
includes an absent config field) no transport call ever occurs for any
sequence of events, and the queue always drains back to empty. -/
theorem test_mode_never_transmits (rb rm : Option String)
    (h : (mkAccessory rb rm).rfbridge = "test" ∨ (mkAccessory rb rm).remote = "test")
    (t : List Ev) :
    (runEvents (mkAccessory rb rm) t).started = [] ∧
    (runEvents (mkAccessory rb rm) t).inFlightCalls = [] ∧
    (runEvents (mkAccessory rb rm) t).commandQueue = [] := by
  rw [test_mode_runEvents _ h t]
  exact ⟨rfl, rfl, rfl⟩

/-- Witness: absent bridge-host field, one enqueue and one stray completion. -/
theorem test_mode_never_transmits_witness :
    (runEvents (mkAccessory none (some "7"))
      [Ev.send (JSVal.num 98), Ev.complete false]).started = [] ∧
    (runEvents (mkAccessory none (some "7"))
      [Ev.send (JSVal.num 98), Ev.complete false]).inFlightCalls = [] ∧
    (runEvents (mkAccessory none (some "7"))
      [Ev.send (JSVal.num 98), Ev.complete false]).commandQueue = [] :=
  test_mode_never_transmits none (some "7") (Or.inl rfl)
    [Ev.send (JSVal.num 98), Ev.complete false]

/-- **C9.** `sendCommand` with the sentinel −1 or a non-numeric value builds
no payload and queues nothing: the state is exactly as before the call. -/
theorem invalid_command_is_noop (a : Accessory) (s : DispatchState) :
    (∀ c : JSVal, isNumber c = false → sendCommand a c s = s) ∧
    sendCommand a (JSVal.num (-1)) s = s := by
  constructor
  · intro c hc
    match c with
    | .undefined => rfl
    | .num n => simp [isNumber] at hc
  · simp [sendCommand]

/-- Witness for the invalid-command guard at the initial state. -/
theorem invalid_command_is_noop_witness :
    sendCommand liveCfg JSVal.undefined initState = initState ∧
    sendCommand liveCfg (JSVal.num (-1)) initState = initState :=
  ⟨(invalid_command_is_noop liveCfg initState).1 JSVal.undefined rfl,
   (invalid_command_is_noop liveCfg initState).2⟩

/-! ### Characteristic SET handlers (lines 169–198 and 243–276) -/

/-- `this.fanStep = 33.33`, as an exact rational scale. -/
def fanStep : ℚ := 33.33

/-- The command table of the RotationSpeed SET handler (lines 189–194). -/
def speedCommands : List Int := [98, 4, 32, 64]

/-- The command table of the Brightness SET handler (lines 262–272). -/
def brightnessCommands : List Int := [266, 10, 11, 12, 13, 14, 15, 72, 73]

/-- JS array subscripting `arr[q]` with a possibly fractional index: an
element for an integral in-bounds index, `undefined` otherwise. -/
def jsIndexAt (l : List Int) (q : ℚ) : JSVal :=
  if h : q.den = 1 ∧ 0 ≤ q.num ∧ q.num.toNat < l.length then
    JSVal.num (l.get ⟨q.num.toNat, h.2.2⟩)
  else JSVal.undefined

/-- Lines 169–198: the RotationSpeed SET handler. `newSpeed = value / 33.33`;
a non-zero `newSpeed` replaces `fanSpeed`; then
`sendCommand(commands[newSpeed])`. Returns the new `fanSpeed` together with
the dispatcher state. -/
def rotationSpeedSet (a : Accessory) (value fanSpeed : ℚ)
    (s : DispatchState) : ℚ × DispatchState :=
  let newSpeed := value / fanStep
  (if newSpeed = 0 then fanSpeed else newSpeed,
   sendCommand a (jsIndexAt speedCommands newSpeed) s)

/-- Lines 243–276: the Brightness SET handler. `newBrightness = value / 12`;
a non-zero `newBrightness` replaces `lightBrightness`; then
`sendCommand(commands[newBrightness])`. -/
def brightnessSet (a : Accessory) (value lightBrightness : ℚ)
    (s : DispatchState) : ℚ × DispatchState :=
  let newBrightness := value / 12
  (if newBrightness = 0 then lightBrightness else newBrightness,
   sendCommand a (jsIndexAt brightnessCommands newBrightness) s)

/-- **C10.** A RotationSpeed or Brightness SET whose scaled value
(`value / 33.33`, resp. `value / 12`) is not an integral index within the
bounds of the corresponding command table looks up `undefined`, and the
numeric-type guard of `sendCommand` makes the call a silent no-op on the
dispatcher state: nothing is enqueued. -/
theorem fractional_index_set_is_noop (a : Accessory) (v fs lb : ℚ)
    (s : DispatchState)
    (h1 : ¬((v / fanStep).den = 1 ∧ 0 ≤ (v / fanStep).num ∧
        (v / fanStep).num.toNat < speedCommands.length))
    (h2 : ¬((v / 12).den = 1 ∧ 0 ≤ (v / 12).num ∧
        (v / 12).num.toNat < brightnessCommands.length)) :
    (rotationSpeedSet a v fs s).2 = s ∧ (brightnessSet a v lb s).2 = s := by
  constructor
  · show sendCommand a (jsIndexAt speedCommands (v / fanStep)) s = s
    rw [jsIndexAt, dif_neg h1]
    rfl
  · show sendCommand a (jsIndexAt brightnessCommands (v / 12)) s = s
    rw [jsIndexAt, dif_neg h2]
    rfl

/-- Witness: a SET of 13332 scales to speed index 400 and brightness index
1111, both out of bounds of their tables, so nothing is enqueued. -/
theorem fractional_index_set_is_noop_witness :
    (rotationSpeedSet liveCfg 13332 1 initState).2 = initState ∧
    (brightnessSet liveCfg 13332 8 initState).2 = initState := by
  have e1 : (13332 : ℚ) / fanStep = 400 := by
    norm_num [fanStep]
  have e2 : (13332 : ℚ) / 12 = 1111 := by
    norm_num
  refine fractional_index_set_is_noop liveCfg 13332 1 8 initState ?_ ?_
  · rw [e1]
    simp [speedCommands]
  · rw [e2]
    simp [brightnessCommands]

end CeilingFan
